import Mathlib

/-!
# BGAW event-correlation core: shallow embedding

A shallow embedding of `src/main.py` (the BGAW webhook-to-Discord bridge).
The Python program correlates GitHub webhook events by head commit SHA into
per-commit `WorkflowEmbed` records held in a `cachetools.TTLCache`, and
publishes/edits a Discord embed for each record.

Modelling choices, stated once:

* Python dicts holding payload JSON become structures; a key the code reads
  with `payload[k]` and that can be absent is an `Option` field, and reading
  an absent key is a `KeyError`, modelled as `Except` with `EvErr.keyError`.
  Fields the claims never exercise as missing (e.g. `repository`) are kept
  total.
* `discord.Embed` keeps only the fields the program writes: title, url,
  description, author.  `self.workflows` (a Python dict, insertion ordered)
  becomes an insertion-ordered association list with dict upsert semantics.
* Outbound Discord calls (`webhook.send`, `message.edit`) are external I/O;
  their outcomes are supplied by a `DeliveryOracle` argument.  An exception
  escaping `receive_event` (KeyError, AttributeError on `None.edit`, delivery
  failure) is the `Except.error` side of the result; state changes already
  performed before the exception persist, as they do with Python's in-place
  mutation.
* `cachetools.TTLCache(maxsize=100, ttl=600)`: entries expire `ttl` seconds
  after insertion (`get` treats an entry with `now ≥ expires` as absent),
  `__setitem__` first prunes expired entries and then evicts the oldest
  entry if the store is full.  Time is an explicit `Nat` parameter.
-/

/-- Marker returned for `conclusion == "failure"` (`\N{LARGE RED CIRCLE}`). -/
def failureMarker : String := "🔴"

/-- Marker returned for `conclusion == "success"` (`\N{LARGE GREEN CIRCLE}`). -/
def successMarker : String := "🟢"

/-- Marker returned for `status == "queued"` (`\N{LARGE YELLOW CIRCLE}`). -/
def queuedMarker : String := "🟡"

/-- Marker returned for `status == "in_progress"` (the animated emoji). -/
def inProgressMarker : String := "<a:WindowsLoading:883414701218873376>"

/-- Marker returned in the fallback case (`\N{BLACK QUESTION MARK ORNAMENT}`). -/
def unknownMarker : String := "❓"

/-- `payload['repository']`: the fields the program reads. -/
structure RepoInfo where
  name : String
  html_url : String
  deriving Repr, DecidableEq

/-- `payload['workflow_run']['triggering_actor']`.  `avatar_url` is read with
`.get("avatar_url", None)`, hence `Option`. -/
structure Actor where
  login : String
  html_url : String
  avatar_url : Option String
  deriving Repr, DecidableEq

/-- One element of `payload['workflow_run']['pull_requests']`. -/
structure PullRef where
  id : Nat
  deriving Repr, DecidableEq

/-- `payload['workflow_job']`: the fields the program reads.  `status` and
`conclusion` can be JSON `null` (the code only compares them with `==`),
and `head_sha` can be absent, hence `Option`. -/
structure WorkflowJobObj where
  head_sha : Option String
  run_id : Nat
  workflow_name : String
  status : Option String
  conclusion : Option String
  deriving Repr, DecidableEq

/-- `payload['workflow_run']`: the fields the program reads. -/
structure WorkflowRunObj where
  head_sha : Option String
  event : String
  triggering_actor : Actor
  pull_requests : List PullRef
  deriving Repr, DecidableEq

/-- `payload['check_run']`: the program only reads its `head_sha`. -/
structure CheckRunObj where
  head_sha : Option String
  deriving Repr, DecidableEq

/-- The inbound JSON payload: sub-objects keyed by event name; an absent
sub-object models a payload that does not carry that key. -/
structure Payload where
  repository : RepoInfo
  workflow_job : Option WorkflowJobObj
  workflow_run : Option WorkflowRunObj
  check_run : Option CheckRunObj
  deriving Repr, DecidableEq

/-- `payload[event]['head_sha']` (line 102): `none` models the `KeyError`
raised when the sub-object or its `head_sha` is missing. -/
def Payload.subHeadSha (p : Payload) (event : String) : Option String :=
  if event = "workflow_job" then p.workflow_job.bind (·.head_sha)
  else if event = "workflow_run" then p.workflow_run.bind (·.head_sha)
  else if event = "check_run" then p.check_run.bind (·.head_sha)
  else none

/-- The author field set by `embed.set_author(...)`. -/
structure EmbedAuthor where
  name : String
  url : String
  icon_url : Option String
  deriving Repr, DecidableEq

/-- The slice of `discord.Embed` the program writes. -/
structure Embed where
  title : Option String
  url : Option String
  description : Option String
  author : Option EmbedAuthor
  deriving Repr, DecidableEq

/-- One value of `self.workflows` (`{'color': ..., 'name': ...}`). -/
structure JobEntry where
  color : String
  name : String
  deriving Repr, DecidableEq

/-- The `WorkflowEmbed` record: `message` is the opaque publish handle
(`None` until the first successful `webhook.send`).  The `asyncio.Lock` is
irrelevant to the sequential semantics and modelled separately for the
concurrency claim. -/
structure WorkflowEmbed where
  embed : Embed
  workflows : List (Nat × JobEntry)
  message : Option Nat
  deriving Repr, DecidableEq

/-- `WorkflowEmbed.create_embed` (lines 35-38): sets title and url on the
fresh `discord.Embed()`; `head_sha` is `payload[event_name]['head_sha']`,
already extracted by the caller's flow. -/
def create_embed (repo : RepoInfo) (head_sha : String) : Embed :=
  { title := some ("[" ++ repo.name ++ "] Workflows")
  , url := some (repo.html_url ++ "/commit/" ++ head_sha)
  , description := none
  , author := none }

/-- `WorkflowEmbed.__init__` (lines 27-33): empty workflows dict, no
message, embed initialised by `create_embed`. -/
def WorkflowEmbed.init (repo : RepoInfo) (head_sha : String) : WorkflowEmbed :=
  { embed := create_embed repo head_sha
  , workflows := []
  , message := none }

/-- `WorkflowEmbed.determine_color` (lines 40-50), the marker precedence
chain over `payload['workflow_job']`'s `conclusion` and `status`. -/
def determine_color (conclusion status : Option String) : String :=
  if conclusion = some "failure" then failureMarker
  else if conclusion = some "success" then successMarker
  else if status = some "queued" then queuedMarker
  else if status = some "in_progress" then inProgressMarker
  else unknownMarker

/-- Python dict assignment `self.workflows[k] = v`: replace in place if the
key exists (keeping its position), else append (insertion order). -/
def dictUpsert (m : List (Nat × JobEntry)) (k : Nat) (v : JobEntry) :
    List (Nat × JobEntry) :=
  if m.any (fun p => p.1 = k) then
    m.map (fun p => if p.1 = k then (k, v) else p)
  else m ++ [(k, v)]

/-- `WorkflowEmbed.create_description` (lines 52-56): one `"{color} {name}"`
line per workflows entry, joined by newlines. -/
def create_description (ws : List (Nat × JobEntry)) : String :=
  String.intercalate "\n" (ws.map (fun p => p.2.color ++ " " ++ p.2.name))

/-- The state mutation performed by `WorkflowEmbed.handle_workflow_job`
(lines 58-62) before the edit call: upsert the job under its `run_id` and
recompute the embed description. -/
def handle_workflow_job_mutate (w : WorkflowEmbed) (job : WorkflowJobObj) :
    WorkflowEmbed :=
  let color := determine_color job.conclusion job.status
  let ws := dictUpsert w.workflows job.run_id ⟨color, job.workflow_name⟩
  { w with workflows := ws
         , embed := { w.embed with description := some (create_description ws) } }

/-- The state mutation performed by `WorkflowEmbed.handle_workflow_run`
(lines 67-82): the `workflow_dispatch` branch rewrites title and author
(no avatar), the `pull_request` branch rewrites url (when a pull request is
listed), title and author (with avatar when present). -/
def handle_workflow_run_mutate (w : WorkflowEmbed) (repo : RepoInfo)
    (run : WorkflowRunObj) : WorkflowEmbed :=
  let w1 :=
    if run.event = "workflow_dispatch" then
      { w with embed :=
        { w.embed with
            title := some ("[" ++ repo.name ++ "] Manually Triggered Workflow")
          , author := some ⟨run.triggering_actor.login,
                            run.triggering_actor.html_url, none⟩ } }
    else w
  if run.event = "pull_request" then
    let url1 := match run.pull_requests with
      | [] => w1.embed.url
      | pr :: _ => some (repo.html_url ++ "/pulls/" ++ toString pr.id)
    { w1 with embed :=
      { w1.embed with
          url := url1
        , title := some ("[" ++ repo.name ++ "] Pull Request Workflows")
        , author := some ⟨run.triggering_actor.login,
                          run.triggering_actor.html_url,
                          run.triggering_actor.avatar_url⟩ } }
  else w1

/-- Store time-to-live: `ttl=10 * 60` seconds (line 23). -/
def cacheTTL : Nat := 10 * 60

/-- Store capacity: `maxsize=100` (line 23). -/
def cacheMaxsize : Nat := 100

/-- One entry of the `cachetools.TTLCache`: its key (a commit SHA), its
expiry instant (`insertion time + cacheTTL`), and the cached record. -/
structure CEntry where
  key : String
  expires : Nat
  value : WorkflowEmbed
  deriving Repr, DecidableEq

/-- The `cache` global (`cachetools.TTLCache(maxsize=100, ttl=10 * 60)`),
entries kept in insertion order, oldest first. -/
structure TTLStore where
  entries : List CEntry
  deriving Repr, DecidableEq

/-- The empty store. -/
def TTLStore.empty : TTLStore := ⟨[]⟩

/-- `cache.get(key, None)`: an entry counts only while `now < expires`
(cachetools treats `timer() >= expires` as expired and returns the
default). -/
def TTLStore.get (s : TTLStore) (now : Nat) (k : String) :
    Option WorkflowEmbed :=
  (s.entries.find? (fun e => e.key = k && now < e.expires)).map (·.value)

/-- `TTLCache.expire`: drop every entry whose expiry instant has been
reached. -/
def TTLStore.expire (s : TTLStore) (now : Nat) : TTLStore :=
  ⟨s.entries.filter (fun e => now < e.expires)⟩

/-- `cache[key] = value`: prune expired entries, replace any existing entry
for the key (moving it to the back with a fresh expiry), and when a new key
would exceed `maxsize`, evict the oldest remaining entry. -/
def TTLStore.set (s : TTLStore) (now : Nat) (k : String)
    (v : WorkflowEmbed) : TTLStore :=
  let pruned := (s.expire now).entries
  let without := pruned.filter (fun e => !(e.key = k))
  let base := if cacheMaxsize ≤ without.length then without.drop 1 else without
  ⟨base ++ [⟨k, now + cacheTTL, v⟩]⟩

/-- In-place mutation of the cached object reached through the store
(e.g. `cache[id].message = ...`, or the mutations `handle_workflow_job`
performs on the object returned by `cache.get`): rewrite the stored record
for the key, leaving position and expiry untouched. -/
def TTLStore.mutate (s : TTLStore) (k : String)
    (f : WorkflowEmbed → WorkflowEmbed) : TTLStore :=
  ⟨s.entries.map (fun e => if e.key = k then { e with value := f e.value } else e)⟩

/-- The stored record for a key, ignoring expiry — used to state what is in
the store after a step. -/
def TTLStore.lookupVal (s : TTLStore) (k : String) : Option WorkflowEmbed :=
  (s.entries.find? (fun e => e.key = k)).map (·.value)

/-- Exceptions that can escape `receive_event`:
`keyError` for a missing payload key, `deliveryError` for a failed
`webhook.send`/`message.edit`, `attributeError` for `self.message.edit`
when `self.message` is `None`. -/
inductive EvErr where
  | keyError
  | deliveryError
  | attributeError
  deriving Repr, DecidableEq

/-- Outcomes of the outbound Discord calls a single `receive_event` turn
may perform, supplied externally: `sendResult` is the `webhook.send`
outcome (a fresh message handle on success), `editOk` the `message.edit`
outcome. -/
structure DeliveryOracle where
  sendResult : Except Unit Nat
  editOk : Bool
  deriving Repr

/-- The observable outcome of one `receive_event` turn. -/
inductive Outcome where
  /-- The header failed the `event not in (...)` filter (lines 99-100):
  dropped before classification. -/
  | ignoredKind
  /-- The handler returned without attempting any publish. -/
  | noPublish
  /-- `webhook.send` was performed: the new handle and the embed sent. -/
  | createSent (handle : Nat) (sent : Embed)
  /-- `message.edit` was performed with the given embed. -/
  | editSent (sent : Embed)
  deriving Repr, DecidableEq

/-- `receive_event` (lines 96-127) at instant `now`: the full handler,
returning the store afterwards and either the outcome or the exception that
escaped.  Mutations made before an exception persist, as in the source. -/
def receive_event (now : Nat) (event : String) (payload : Payload)
    (oracle : DeliveryOracle) (st : TTLStore) :
    TTLStore × Except EvErr Outcome :=
  if ¬(event = "workflow_job" ∨ event = "check_run" ∨ event = "workflow_run")
  then (st, .ok .ignoredKind)
  else
    match payload.subHeadSha event with
    | none => (st, .error .keyError)
    | some id =>
      match st.get now id with
      | none =>
        -- `obj = WorkflowEmbed(event, payload)`
        let obj0 := WorkflowEmbed.init payload.repository id
        -- `if event == "workflow_run": await obj.handle_workflow_run(payload)`
        -- (the trailing `if self.message:` edit is vacuous here: the fresh
        -- object has `message = None`)
        let obj1 :=
          match (if event = "workflow_run" then payload.workflow_run else none) with
          | some run => handle_workflow_run_mutate obj0 payload.repository run
          | none => obj0
        -- `cache[id] = obj`, then `cache[id].message = await webhook.send(...)`
        let st1 := st.set now id obj1
        match oracle.sendResult with
        | .error _ => (st1, .error .deliveryError)
        | .ok h =>
          (st1.mutate id (fun w => { w with message := some h }),
           .ok (.createSent h obj1.embed))
      | some obj =>
        if event = "check_run" then
          -- `await obj.handle_check_run(payload)`: the body is `...`
          (st, .ok .noPublish)
        else if event = "workflow_job" then
          match payload.workflow_job with
          | none => (st, .error .keyError)
          | some job =>
            -- `handle_workflow_job`: mutate in place, then
            -- `await self.message.edit(embed=self.embed)`
            let obj1 := handle_workflow_job_mutate obj job
            let st1 := st.mutate id (fun _ => obj1)
            match obj.message with
            | none => (st1, .error .attributeError)
            | some _ =>
              if oracle.editOk then (st1, .ok (.editSent obj1.embed))
              else (st1, .error .deliveryError)
        else
          -- `event == "workflow_run"` with an existing record: neither
          -- branch of lines 124-127 fires; the handler returns `None`
          (st, .ok .noPublish)

/-- The `jobs`-mapping entry a `JobUpdate` writes. -/
def jobEntryOf (j : WorkflowJobObj) : JobEntry :=
  ⟨determine_color j.conclusion j.status, j.workflow_name⟩

/-! ## Concrete fixtures used by witnesses and counterexamples -/

/-- A concrete repository object. -/
def cRepo : RepoInfo := ⟨"r", "https://x/r"⟩

/-- A queued job event payload object, run id 1. -/
def cJobQueued : WorkflowJobObj := ⟨some "sha1", 1, "build", some "queued", none⟩

/-- The same job later, in progress. -/
def cJobProgress : WorkflowJobObj :=
  ⟨some "sha1", 1, "build", some "in_progress", none⟩

/-- A second, failed job, run id 2. -/
def cJobFailed : WorkflowJobObj := ⟨some "sha1", 2, "test", none, some "failure"⟩

/-- Payload of the queued `workflow_job` event. -/
def cPJobQueued : Payload := ⟨cRepo, some cJobQueued, none, none⟩

/-- Payload of the in-progress `workflow_job` event. -/
def cPJobProgress : Payload := ⟨cRepo, some cJobProgress, none, none⟩

/-- A triggering actor with an avatar on record. -/
def cActor : Actor := ⟨"alice", "https://x/alice", some "https://x/av"⟩

/-- A manually dispatched run object. -/
def cRunDispatch : WorkflowRunObj :=
  ⟨some "sha1", "workflow_dispatch", cActor, []⟩

/-- Payload of the `workflow_run` dispatch event. -/
def cPRunDispatch : Payload := ⟨cRepo, none, some cRunDispatch, none⟩

/-- Payload of a `check_run` event. -/
def cPCheckRun : Payload := ⟨cRepo, none, none, some ⟨some "sha1"⟩⟩

/-- A `workflow_job` payload with no `workflow_job` object at all. -/
def cPNoJob : Payload := ⟨cRepo, none, none, none⟩

/-- A `workflow_job` payload whose job object misses its `head_sha`. -/
def cPJobNoSha : Payload :=
  ⟨cRepo, some ⟨none, 1, "build", some "queued", none⟩, none, none⟩

/-- Delivery succeeds; a fresh send returns handle 5. -/
def cOrcOk : DeliveryOracle := ⟨.ok 5, true⟩

/-- Delivery fails on both operations. -/
def cOrcFail : DeliveryOracle := ⟨.error (), false⟩

/-- Store after the queued job event was processed successfully at t=0. -/
def cSt1 : TTLStore :=
  (receive_event 0 "workflow_job" cPJobQueued cOrcOk TTLStore.empty).1

/-- The record `cSt1` holds: published with handle 5, empty jobs mapping. -/
def cRec1 : WorkflowEmbed :=
  { embed := create_embed cRepo "sha1", workflows := [], message := some 5 }

/-- Store after the queued job event whose initial send failed at t=0. -/
def cStFail : TTLStore :=
  (receive_event 0 "workflow_job" cPJobQueued cOrcFail TTLStore.empty).1

/-! ## Publisher-gate concurrency model

The per-record publish flows under asyncio: code between awaits runs
without interleaving.  For the creating turn (lines 105-120): the record
is cached with `message = None` before the lock, then `async with
obj.lock: cache[id].message = await webhook.send(embed=obj.embed)` — the
send renders its embed argument when the call starts, and the returned
handle is stored when the round trip completes.  For a `workflow_job`
turn on an existing record (lines 58-64): the mutation block (lines
59-62) is synchronous, then `async with self.lock`, then
`self.message.edit(embed=self.embed)` renders at call time (and needs the
handle present) and completes at a later suspension point.  Each such
phase is one atomic step.
-/

/-- Whether an outbound publish was the initial send or an edit. -/
inductive PubKind where
  | create
  | edit
  deriving Repr, DecidableEq

/-- Atomic steps of the per-record publish flows. -/
inductive GStep where
  | mutate (job : WorkflowJobObj)
  | acqLock
  | callSend
  | finishSend
  | callEdit
  | finishEdit
  | relLock
  deriving Repr, DecidableEq

/-- The step sequence of the creating turn once the record is cached. -/
def createProgram : List GStep :=
  [.acqLock, .callSend, .finishSend, .relLock]

/-- The step sequence of one `handle_workflow_job` turn. -/
def editProgram (job : WorkflowJobObj) : List GStep :=
  [.mutate job, .acqLock, .callEdit, .finishEdit, .relLock]

/-- One pending turn: its id and its remaining steps. -/
structure GateTask where
  tid : Nat
  steps : List GStep
  deriving Repr, DecidableEq

/-- The shared world of one record's turns: the record, the handle the
webhook will return, who holds the record's lock, the rendered publish in
flight (if any), and the publishes delivered so far, oldest first. -/
structure GateWorld where
  record : WorkflowEmbed
  sendHandle : Nat
  lockHeldBy : Option Nat
  inflight : Option (Nat × PubKind × Embed)
  outbox : List (PubKind × Embed)
  tasks : List GateTask
  deriving Repr, DecidableEq

/-- The task with the given id, if any. -/
def GateWorld.taskOf (wld : GateWorld) (tid : Nat) : Option GateTask :=
  wld.tasks.find? (fun t => t.tid = tid)

/-- Replace the task with id `t.tid`. -/
def GateWorld.setTask (wld : GateWorld) (t : GateTask) : GateWorld :=
  { wld with tasks := wld.tasks.map (fun u => if u.tid = t.tid then t else u) }

/-- Execute the next step of task `tid` if it is enabled: `acqLock` needs
the lock free; `callSend` needs the task to hold the lock and no call in
flight; `finishSend` completes this task's in-flight send, storing the
returned handle on the record; `callEdit` additionally needs a published
handle on the record; `finishEdit` completes this task's in-flight edit.
`none` when the task is finished or must wait. -/
def gateStep (wld : GateWorld) (tid : Nat) : Option GateWorld :=
  match wld.taskOf tid with
  | none => none
  | some t =>
    match t.steps with
    | [] => none
    | step :: rest =>
      let t' : GateTask := ⟨t.tid, rest⟩
      match step with
      | .mutate job =>
          some (({ wld with
            record := handle_workflow_job_mutate wld.record job }).setTask t')
      | .acqLock =>
          match wld.lockHeldBy with
          | some _ => none
          | none => some (({ wld with lockHeldBy := some tid }).setTask t')
      | .callSend =>
          if wld.lockHeldBy = some tid ∧ wld.inflight = none then
            some (({ wld with
              inflight := some (tid, PubKind.create, wld.record.embed) }).setTask t')
          else none
      | .finishSend =>
          match wld.inflight with
          | some (tid2, PubKind.create, e) =>
              if tid2 = tid then
                some (({ wld with
                  record := { wld.record with
                    message := some wld.sendHandle },
                  inflight := none,
                  outbox := wld.outbox ++ [(PubKind.create, e)] }).setTask t')
              else none
          | _ => none
      | .callEdit =>
          if wld.lockHeldBy = some tid ∧ wld.record.message.isSome
              ∧ wld.inflight = none then
            some (({ wld with
              inflight := some (tid, PubKind.edit, wld.record.embed) }).setTask t')
          else none
      | .finishEdit =>
          match wld.inflight with
          | some (tid2, PubKind.edit, e) =>
              if tid2 = tid then
                some (({ wld with
                  inflight := none,
                  outbox := wld.outbox ++ [(PubKind.edit, e)] }).setTask t')
              else none
          | _ => none
      | .relLock =>
          if wld.lockHeldBy = some tid then
            some (({ wld with lockHeldBy := none }).setTask t')
          else none

/-- Run a schedule: at each tick the named task takes its next step; a
disabled pick leaves the world unchanged (that task cannot progress). -/
def runSched (wld : GateWorld) (sched : List Nat) : GateWorld :=
  sched.foldl (fun w tid => (gateStep w tid).getD w) wld

/-- The creating turn for a just-cached, not yet published record, with a
`workflow_job` event queued behind it. -/
def createThenJobWorld (rec : WorkflowEmbed) (hdl : Nat)
    (jobB : WorkflowJobObj) : GateWorld :=
  { record := rec, sendHandle := hdl, lockHeldBy := none, inflight := none
  , outbox := [], tasks := [⟨1, createProgram⟩, ⟨2, editProgram jobB⟩] }

/-- Two `workflow_job` events queued against one already-published
record. -/
def twoJobWorld (rec : WorkflowEmbed) (jobA jobB : WorkflowJobObj) :
    GateWorld :=
  { record := rec, sendHandle := 0, lockHeldBy := none, inflight := none
  , outbox := [], tasks := [⟨1, editProgram jobA⟩, ⟨2, editProgram jobB⟩] }

/-- The asyncio interleaving in which the second event arrives while the
record's initial send is in flight: task 1 runs to its HTTP await inside
the lock, task 2 then mutates and blocks on the lock, task 1 stores the
handle and releases, and task 2 proceeds with its edit. -/
def createEditSched : List Nat := [1, 1, 2, 2, 1, 1, 2, 2, 2, 2]

/-- The asyncio interleaving in which the second event arrives while the
first event's edit is in flight: task 1 runs to its HTTP await, task 2
then mutates and blocks on the lock, task 1 completes and releases, and
task 2 proceeds. -/
def backToBackSched : List Nat := [1, 1, 1, 2, 2, 1, 1, 2, 2, 2, 2]

/-! ## Store lemmas -/

/-- `set` stores the new entry at the back, after entries none of which
carry the written key. -/
theorem TTLStore.set_entries (s : TTLStore) (now : Nat) (k : String)
    (v : WorkflowEmbed) :
    ∃ base, (s.set now k v).entries = base ++ [⟨k, now + cacheTTL, v⟩]
      ∧ ∀ e ∈ base, ¬(e.key = k) := by
  refine ⟨_, rfl, ?_⟩
  intro e he
  have hw : e ∈ (s.expire now).entries.filter (fun e => !(e.key = k)) := by
    split at he
    · exact List.mem_of_mem_drop he
    · exact he
  simpa using List.of_mem_filter hw

/-- A key-`k` query on entries `base ++ [x]` where `base` is `k`-free finds
exactly `x` when `p x` holds, nothing otherwise. -/
theorem find?_base_append (base : List CEntry) (x : CEntry)
    (p : CEntry → Bool) (hb : ∀ e ∈ base, p e = false) :
    (base ++ [x]).find? p = if p x then some x else none := by
  have h1 : base.find? p = none := List.find?_eq_none.mpr (by
    intro e he
    simp [hb e he])
  rw [List.find?_append, h1, Option.none_or]
  by_cases hx : p x
  · rw [List.find?_cons_of_pos _ hx, if_pos hx]
  · rw [List.find?_cons_of_neg _ (by simpa using hx), if_neg hx]
    rfl

/-- After `cache[k] = v`, the stored record for `k` is `v`. -/
theorem TTLStore.lookupVal_set (s : TTLStore) (now : Nat) (k : String)
    (v : WorkflowEmbed) : (s.set now k v).lookupVal k = some v := by
  obtain ⟨base, hb, hfree⟩ := TTLStore.set_entries s now k v
  unfold TTLStore.lookupVal
  rw [hb, find?_base_append base _ _ (by
    intro e he
    simpa using hfree e he)]
  simp

/-- Once the TTL measured from insertion has elapsed, the inserted entry is
invisible to `get`: the key reads as absent. -/
theorem TTLStore.get_set_expired (s : TTLStore) (t : Nat) (k : String)
    (v : WorkflowEmbed) (t' : Nat) (h : t + cacheTTL ≤ t') :
    (s.set t k v).get t' k = none := by
  obtain ⟨base, hb, hfree⟩ := TTLStore.set_entries s t k v
  unfold TTLStore.get
  rw [hb, find?_base_append base _ _ (by
    intro e he
    simp [hfree e he])]
  have : ¬(t' < t + cacheTTL) := by omega
  simp [this]

/-- `cache[k] = v` keeps the store within `maxsize`. -/
theorem TTLStore.length_set_le (s : TTLStore) (now : Nat) (k : String)
    (v : WorkflowEmbed) (h : s.entries.length ≤ cacheMaxsize) :
    (s.set now k v).entries.length ≤ cacheMaxsize := by
  have hle : ((s.expire now).entries.filter (fun e => !(e.key = k))).length
      ≤ cacheMaxsize := by
    calc ((s.expire now).entries.filter (fun e => !(e.key = k))).length
        ≤ (s.expire now).entries.length := List.length_filter_le _ _
      _ = (s.entries.filter (fun e => now < e.expires)).length := rfl
      _ ≤ s.entries.length := List.length_filter_le _ _
      _ ≤ cacheMaxsize := h
  show ((if cacheMaxsize ≤
          ((s.expire now).entries.filter (fun (e : CEntry) => !(e.key = k))).length
        then ((s.expire now).entries.filter (fun (e : CEntry) => !(e.key = k))).drop 1
        else (s.expire now).entries.filter (fun (e : CEntry) => !(e.key = k))) ++
      [CEntry.mk k (now + cacheTTL) v]).length ≤ cacheMaxsize
  generalize (s.expire now).entries.filter (fun (e : CEntry) => !(e.key = k)) = W at hle ⊢
  split
  · simp only [List.length_append, List.length_drop, List.length_cons,
      List.length_nil]
    have hc : cacheMaxsize = 100 := rfl
    omega
  · rename_i hfull
    simp only [List.length_append, List.length_cons, List.length_nil]
    omega

/-- If `get` finds a record under `k`, some entry with key `k` is stored. -/
theorem TTLStore.lookupVal_isSome_of_get (s : TTLStore) (now : Nat)
    (k : String) (w : WorkflowEmbed) (h : s.get now k = some w) :
    (s.lookupVal k).isSome := by
  unfold TTLStore.get at h
  unfold TTLStore.lookupVal
  cases hf : s.entries.find? (fun e => e.key = k && now < e.expires) with
  | none => rw [hf] at h; simp at h
  | some e =>
    have he : e ∈ s.entries := List.mem_of_find?_eq_some hf
    have hk : e.key = k := by
      have := List.find?_some hf
      simp at this
      exact this.1
    cases hg : s.entries.find? (fun e => e.key = k) with
    | some _ => simp
    | none =>
      rw [List.find?_eq_none] at hg
      exact absurd (by simpa using hk) (by simpa using hg e he)

/-- In-place mutation through the store rewrites what `lookupVal` sees. -/
theorem TTLStore.lookupVal_mutate (s : TTLStore) (k : String)
    (f : WorkflowEmbed → WorkflowEmbed) :
    (s.mutate k f).lookupVal k = (s.lookupVal k).map f := by
  obtain ⟨l⟩ := s
  simp only [TTLStore.lookupVal, TTLStore.mutate]
  induction l with
  | nil => rfl
  | cons e rest ih =>
    by_cases hk : e.key = k
    · rw [List.map_cons, if_pos hk]
      rw [List.find?_cons_of_pos _ (by simpa using hk),
        List.find?_cons_of_pos _ (by simpa using hk)]
      rfl
    · rw [List.map_cons, if_neg hk,
        List.find?_cons_of_neg _ (by simpa using hk),
        List.find?_cons_of_neg _ (by simpa using hk)]
      exact ih

/-- `set` followed by an in-place mutation of the record just stored. -/
theorem TTLStore.lookupVal_set_mutate (s : TTLStore) (now : Nat) (k : String)
    (v : WorkflowEmbed) (f : WorkflowEmbed → WorkflowEmbed) :
    ((s.set now k v).mutate k f).lookupVal k = some (f v) := by
  rw [TTLStore.lookupVal_mutate, TTLStore.lookupVal_set]
  rfl

/-! ## `receive_event` branch lemmas -/

/-- A header outside `("workflow_job", "check_run", "workflow_run")` is
dropped before classification: no state change, no exception. -/
theorem receive_event_unknown (now : Nat) (event : String) (p : Payload)
    (orc : DeliveryOracle) (st : TTLStore)
    (h : ¬(event = "workflow_job" ∨ event = "check_run" ∨ event = "workflow_run")) :
    receive_event now event p orc st = (st, .ok .ignoredKind) := by
  simp [receive_event, h]

/-- An accepted header whose payload misses `payload[event]['head_sha']`
raises the `KeyError` before any state change. -/
theorem receive_event_missing_sha (now : Nat) (event : String) (p : Payload)
    (orc : DeliveryOracle) (st : TTLStore)
    (hev : event = "workflow_job" ∨ event = "check_run" ∨ event = "workflow_run")
    (hsha : p.subHeadSha event = none) :
    receive_event now event p orc st = (st, .error .keyError) := by
  simp [receive_event, hev, hsha]

/-- `workflow_job` with no live record: the creating path. -/
theorem receive_event_job_fresh (now : Nat) (p : Payload)
    (job : WorkflowJobObj) (sha : String) (orc : DeliveryOracle)
    (st : TTLStore) (hjob : p.workflow_job = some job)
    (hsha : job.head_sha = some sha) (habs : st.get now sha = none) :
    receive_event now "workflow_job" p orc st =
      match orc.sendResult with
      | .error _ =>
          (st.set now sha (WorkflowEmbed.init p.repository sha),
           .error .deliveryError)
      | .ok h =>
          ((st.set now sha (WorkflowEmbed.init p.repository sha)).mutate sha
              (fun w => { w with message := some h }),
           .ok (.createSent h (create_embed p.repository sha))) := by
  have hs : p.subHeadSha "workflow_job" = some sha := by
    simp [Payload.subHeadSha, hjob, hsha]
  simp only [receive_event, hs, habs]
  norm_num
  rcases orc.sendResult with _ | h <;> rfl

/-- `workflow_job` with a live record: mutate in place, then attempt the
edit through the stored handle. -/
theorem receive_event_job_existing (now : Nat) (p : Payload)
    (job : WorkflowJobObj) (sha : String) (orc : DeliveryOracle)
    (st : TTLStore) (w : WorkflowEmbed) (hjob : p.workflow_job = some job)
    (hsha : job.head_sha = some sha) (hget : st.get now sha = some w) :
    receive_event now "workflow_job" p orc st =
      (st.mutate sha (fun _ => handle_workflow_job_mutate w job),
       match w.message with
       | none => .error .attributeError
       | some _ =>
           if orc.editOk then
             .ok (.editSent (handle_workflow_job_mutate w job).embed)
           else .error .deliveryError) := by
  have hs : p.subHeadSha "workflow_job" = some sha := by
    simp [Payload.subHeadSha, hjob, hsha]
  simp only [receive_event, hs, hget, hjob]
  norm_num
  rcases w.message with _ | h
  · rfl
  · by_cases he : orc.editOk <;> simp [he]

/-- `workflow_run` with no live record: the creating path, with the
run-specific mutation applied before the send. -/
theorem receive_event_run_fresh (now : Nat) (p : Payload)
    (run : WorkflowRunObj) (sha : String) (orc : DeliveryOracle)
    (st : TTLStore) (hrun : p.workflow_run = some run)
    (hsha : run.head_sha = some sha) (habs : st.get now sha = none) :
    receive_event now "workflow_run" p orc st =
      match orc.sendResult with
      | .error _ =>
          (st.set now sha (handle_workflow_run_mutate
              (WorkflowEmbed.init p.repository sha) p.repository run),
           .error .deliveryError)
      | .ok h =>
          ((st.set now sha (handle_workflow_run_mutate
              (WorkflowEmbed.init p.repository sha) p.repository run)).mutate
                sha (fun w => { w with message := some h }),
           .ok (.createSent h (handle_workflow_run_mutate
              (WorkflowEmbed.init p.repository sha) p.repository run).embed)) := by
  have hs : p.subHeadSha "workflow_run" = some sha := by
    simp [Payload.subHeadSha, hrun, hsha]
  simp only [receive_event, hs, habs, hrun]
  norm_num

/-- `workflow_run` with a live record: neither dispatch branch of the
`else` arm fires; the handler is a silent no-op. -/
theorem receive_event_run_existing (now : Nat) (p : Payload)
    (run : WorkflowRunObj) (sha : String) (orc : DeliveryOracle)
    (st : TTLStore) (w : WorkflowEmbed) (hrun : p.workflow_run = some run)
    (hsha : run.head_sha = some sha) (hget : st.get now sha = some w) :
    receive_event now "workflow_run" p orc st = (st, .ok .noPublish) := by
  have hs : p.subHeadSha "workflow_run" = some sha := by
    simp [Payload.subHeadSha, hrun, hsha]
  simp [receive_event, hs, hget]

/-- `check_run` with a live record: `handle_check_run` is a bare `...`;
nothing happens. -/
theorem receive_event_check_existing (now : Nat) (p : Payload)
    (sha : String) (orc : DeliveryOracle) (st : TTLStore)
    (w : WorkflowEmbed) (hsha : p.check_run.bind (fun c => c.head_sha) = some sha)
    (hget : st.get now sha = some w) :
    receive_event now "check_run" p orc st = (st, .ok .noPublish) := by
  have hs : p.subHeadSha "check_run" = some sha := by
    simp [Payload.subHeadSha, hsha]
  simp [receive_event, hs, hget]

/-- `check_run` with no live record still takes the creating path. -/
theorem receive_event_check_fresh (now : Nat) (p : Payload)
    (sha : String) (orc : DeliveryOracle) (st : TTLStore)
    (hsha : p.check_run.bind (fun c => c.head_sha) = some sha)
    (habs : st.get now sha = none) :
    receive_event now "check_run" p orc st =
      match orc.sendResult with
      | .error _ =>
          (st.set now sha (WorkflowEmbed.init p.repository sha),
           .error .deliveryError)
      | .ok h =>
          ((st.set now sha (WorkflowEmbed.init p.repository sha)).mutate sha
              (fun w => { w with message := some h }),
           .ok (.createSent h (create_embed p.repository sha))) := by
  have hs : p.subHeadSha "check_run" = some sha := by
    simp [Payload.subHeadSha, hsha]
  simp only [receive_event, hs, habs]
  norm_num
  rcases orc.sendResult with _ | h <;> rfl

/-! ## Aggregation lemmas -/

/-- Upserting an unseen key appends. -/
theorem dictUpsert_append_of_not_mem (m : List (Nat × JobEntry)) (k : Nat)
    (v : JobEntry) (h : ∀ q ∈ m, ¬(q.1 = k)) :
    dictUpsert m k v = m ++ [(k, v)] := by
  unfold dictUpsert
  have : m.any (fun p => p.1 = k) = false := by
    rw [List.any_eq_false]
    intro q hq
    simpa using h q hq
  rw [this]
  simp

/-- Folding a run of `JobUpdate` mutations with pairwise-distinct
job-run-ids over a record whose `workflows` is disjoint from those ids
appends one entry per update, in order. -/
theorem foldl_job_mutate_workflows (jobs : List WorkflowJobObj) :
    ∀ (w : WorkflowEmbed),
    (∀ j ∈ jobs, ∀ q ∈ w.workflows, ¬(q.1 = j.run_id)) →
    (jobs.map (fun j => j.run_id)).Nodup →
    (jobs.foldl handle_workflow_job_mutate w).workflows
      = w.workflows ++ jobs.map (fun j => (j.run_id, jobEntryOf j)) := by
  induction jobs with
  | nil => intro w _ _; simp
  | cons j rest ih =>
    intro w hdisj hnd
    rw [List.foldl_cons]
    have hstep : (handle_workflow_job_mutate w j).workflows
        = w.workflows ++ [(j.run_id, jobEntryOf j)] := by
      unfold handle_workflow_job_mutate
      exact dictUpsert_append_of_not_mem _ _ _
        (fun q hq => hdisj j (by simp) q hq)
    rw [List.map_cons, List.nodup_cons] at hnd
    have hdisj' : ∀ j' ∈ rest, ∀ q ∈ (handle_workflow_job_mutate w j).workflows,
        ¬(q.1 = j'.run_id) := by
      intro j' hj' q hq
      rw [hstep] at hq
      rcases List.mem_append.mp hq with hq | hq
      · exact hdisj j' (by simp [hj']) q hq
      · have : q = (j.run_id, jobEntryOf j) := by simpa using hq
        subst this
        intro hc
        exact hnd.1 (by
          have hc' : j.run_id = j'.run_id := hc
          rw [hc']
          exact List.mem_map_of_mem (fun j => j.run_id) hj')
    rw [ih _ hdisj' hnd.2, hstep]
    simp

/-- In a run of updates with pairwise-distinct job-run-ids, exactly one
update carries any given id that occurs. -/
theorem filter_run_id_single (jobs : List WorkflowJobObj)
    (j : WorkflowJobObj) (hnd : (jobs.map (fun x => x.run_id)).Nodup)
    (hj : j ∈ jobs) :
    jobs.filter (fun x => x.run_id = j.run_id) = [j] := by
  induction jobs with
  | nil => cases hj
  | cons a rest ih =>
    rw [List.map_cons, List.nodup_cons] at hnd
    rcases List.mem_cons.mp hj with rfl | hj'
    · rw [List.filter_cons_of_pos (by simp)]
      have : rest.filter (fun x => x.run_id = j.run_id) = [] := by
        rw [List.filter_eq_nil_iff]
        intro x hx
        simp only [decide_eq_true_eq]
        intro hc
        exact hnd.1 (hc ▸ List.mem_map_of_mem (fun x => x.run_id) hx)
      rw [this]
    · have hne : ¬(a.run_id = j.run_id) := by
        intro hc
        exact hnd.1 (hc ▸ List.mem_map_of_mem (fun x => x.run_id) hj')
      rw [List.filter_cons_of_neg (by simpa using hne)]
      exact ih hnd.2 hj'

/-! ## Claim theorems -/

/-- C7: For every `JobUpdate` payload, the derived status marker follows
the stated precedence — `conclusion="failure"` yields the Failed marker;
otherwise `conclusion="success"` yields the Succeeded marker; otherwise
`status="queued"` yields the Queued marker; otherwise
`status="in_progress"` yields the InProgress marker; otherwise the
Unknown marker. -/
theorem claim_C7 (c s : Option String) :
    (c = some "failure" → determine_color c s = failureMarker) ∧
    (¬(c = some "failure") → c = some "success" →
      determine_color c s = successMarker) ∧
    (¬(c = some "failure") → ¬(c = some "success") → s = some "queued" →
      determine_color c s = queuedMarker) ∧
    (¬(c = some "failure") → ¬(c = some "success") → ¬(s = some "queued") →
      s = some "in_progress" → determine_color c s = inProgressMarker) ∧
    (¬(c = some "failure") → ¬(c = some "success") → ¬(s = some "queued") →
      ¬(s = some "in_progress") → determine_color c s = unknownMarker) := by
  unfold determine_color
  refine ⟨?_, ?_, ?_, ?_, ?_⟩ <;> intros <;> simp_all

/-- Witness for C7 at `conclusion="failure"`, `status="queued"`. -/
theorem claim_C7_witness :
    determine_color (some "failure") (some "queued") = failureMarker :=
  (claim_C7 (some "failure") (some "queued")).1 rfl

/-- C1: For every sequence of `JobUpdate` events with pairwise-distinct
job-run-ids applied to the same correlation key's record, the record's
`jobs` mapping afterwards contains exactly one entry per job-run-id, and
each entry holds the marker and job name from the (here: unique) update
for that job-run-id — in fact the final mapping is exactly one entry per
update, in arrival order. -/
theorem claim_C1 (repo : RepoInfo) (sha : String)
    (jobs : List WorkflowJobObj)
    (hnd : (jobs.map (fun j => j.run_id)).Nodup) :
    ((jobs.foldl handle_workflow_job_mutate
        (WorkflowEmbed.init repo sha)).workflows
      = jobs.map (fun j => (j.run_id, jobEntryOf j))) ∧
    (∀ j ∈ jobs,
      (jobs.foldl handle_workflow_job_mutate
          (WorkflowEmbed.init repo sha)).workflows.filter
            (fun q => q.1 = j.run_id)
        = [(j.run_id, jobEntryOf j)]) ∧
    (∀ q ∈ (jobs.foldl handle_workflow_job_mutate
        (WorkflowEmbed.init repo sha)).workflows,
      q.1 ∈ jobs.map (fun j => j.run_id)) := by
  have hmain0 := foldl_job_mutate_workflows jobs (WorkflowEmbed.init repo sha)
    (by intro j _ q hq; simp [WorkflowEmbed.init] at hq) hnd
  have hmain : (jobs.foldl handle_workflow_job_mutate
      (WorkflowEmbed.init repo sha)).workflows
        = jobs.map (fun j => (j.run_id, jobEntryOf j)) := by
    rw [hmain0]
    rfl
  refine ⟨hmain, ?_, ?_⟩
  · intro j hj
    rw [hmain]
    rw [List.filter_map]
    have hxeq : ((fun (q : Nat × JobEntry) => decide (q.1 = j.run_id)) ∘
        (fun x => (x.run_id, jobEntryOf x)))
      = (fun x => decide (x.run_id = j.run_id)) := rfl
    rw [hxeq, filter_run_id_single jobs j hnd hj]
    rfl
  · intro q hq
    rw [hmain] at hq
    obtain ⟨j, hj, rfl⟩ := List.mem_map.mp hq
    exact List.mem_map_of_mem (fun j => j.run_id) hj

/-! ## Shared characterisations used by several claims -/

/-- The first `workflow_job` event for a key, with the send succeeding:
the outcome and the stored record. -/
theorem fresh_job_create_ok (now : Nat) (p : Payload) (job : WorkflowJobObj)
    (sha : String) (orc : DeliveryOracle) (h : Nat) (st : TTLStore)
    (hjob : p.workflow_job = some job) (hsha : job.head_sha = some sha)
    (habs : st.get now sha = none) (hsend : orc.sendResult = .ok h) :
    (receive_event now "workflow_job" p orc st).2
      = .ok (.createSent h (create_embed p.repository sha))
    ∧ (receive_event now "workflow_job" p orc st).1.lookupVal sha
      = some { embed := create_embed p.repository sha
             , workflows := []
             , message := some h } := by
  have hr := receive_event_job_fresh now p job sha orc st hjob hsha habs
  rw [hsend] at hr
  constructor
  · rw [hr]
  · rw [hr]
    exact TTLStore.lookupVal_set_mutate st now sha
      (WorkflowEmbed.init p.repository sha)
      (fun w => { w with message := some h })

/-- The embed after the `workflow_dispatch` branch of
`handle_workflow_run`: manual title, author without avatar. -/
theorem run_mutate_dispatch_embed (w : WorkflowEmbed) (repo : RepoInfo)
    (run : WorkflowRunObj) (hdisp : run.event = "workflow_dispatch") :
    (handle_workflow_run_mutate w repo run).embed.title
      = some ("[" ++ repo.name ++ "] Manually Triggered Workflow")
    ∧ (handle_workflow_run_mutate w repo run).embed.author
      = some ⟨run.triggering_actor.login, run.triggering_actor.html_url,
              none⟩ := by
  simp [handle_workflow_run_mutate, hdisp]

/-- `handle_workflow_job` never touches the publish handle. -/
theorem handle_workflow_job_mutate_message (w : WorkflowEmbed)
    (j : WorkflowJobObj) :
    (handle_workflow_job_mutate w j).message = w.message := rfl

/-- `handle_workflow_job` never touches title or author. -/
theorem handle_workflow_job_mutate_title_author (w : WorkflowEmbed)
    (j : WorkflowJobObj) :
    (handle_workflow_job_mutate w j).embed.title = w.embed.title
    ∧ (handle_workflow_job_mutate w j).embed.author = w.embed.author :=
  ⟨rfl, rfl⟩

/-- Witness for C1 on the two-job run `[cJobQueued, cJobFailed]`. -/
theorem claim_C1_witness :
    (([cJobQueued, cJobFailed].map (fun j => j.run_id)).Nodup) ∧
    (([cJobQueued, cJobFailed].foldl handle_workflow_job_mutate
        (WorkflowEmbed.init cRepo "sha1")).workflows
      = [cJobQueued, cJobFailed].map (fun j => (j.run_id, jobEntryOf j))) :=
  ⟨by decide,
   (claim_C1 cRepo "sha1" [cJobQueued, cJobFailed] (by decide)).1⟩

/-- C2 counterexample: the very first `JobUpdate` (status `"queued"`) on
an empty store does create the record and perform the create-and-send,
but the summary it publishes carries no job line: the sent embed's
description is unset rather than a Queued line, and the stored jobs
mapping is empty. -/
theorem claim_C2_counterexample :
    (receive_event 0 "workflow_job" cPJobQueued cOrcOk TTLStore.empty).2
      = .ok (.createSent 5 (create_embed cRepo "sha1"))
    ∧ (create_embed cRepo "sha1").description = none
    ∧ ((receive_event 0 "workflow_job" cPJobQueued cOrcOk
        TTLStore.empty).1.lookupVal "sha1").map (fun w => w.workflows)
      = some []
    ∧ ¬((create_embed cRepo "sha1").description
        = some (queuedMarker ++ " " ++ "build")) :=
  ⟨rfl, rfl, rfl, by simp [create_embed]⟩

/-- C2 (amended): when a JobUpdate is the first event observed for its
correlation key (empty store for that key), a record is created and the
initial create-and-send is performed — but the published summary does not
yet contain that job's line: the creating path never applies the
JobUpdate, so the sent embed's description is unset and the stored
record's jobs mapping is empty (only the fresh handle is recorded). -/
theorem claim_C2 (now : Nat) (p : Payload) (job : WorkflowJobObj)
    (sha : String) (orc : DeliveryOracle) (h : Nat) (st : TTLStore)
    (hjob : p.workflow_job = some job) (hsha : job.head_sha = some sha)
    (habs : st.get now sha = none) (hsend : orc.sendResult = .ok h) :
    (receive_event now "workflow_job" p orc st).2
      = .ok (.createSent h (create_embed p.repository sha))
    ∧ (create_embed p.repository sha).description = none
    ∧ (receive_event now "workflow_job" p orc st).1.lookupVal sha
      = some { embed := create_embed p.repository sha
             , workflows := []
             , message := some h } := by
  obtain ⟨h1, h2⟩ := fresh_job_create_ok now p job sha orc h st hjob hsha habs hsend
  exact ⟨h1, rfl, h2⟩

/-- Witness for C2 at the concrete queued job event. -/
theorem claim_C2_witness :
    (receive_event 0 "workflow_job" cPJobQueued cOrcOk TTLStore.empty).2
      = .ok (.createSent 5 (create_embed cRepo "sha1")) :=
  (claim_C2 0 cPJobQueued cJobQueued "sha1" cOrcOk 5 TTLStore.empty
    rfl rfl rfl rfl).1

/-- C3 counterexample: a manual-trigger RunUpdate arriving for a key whose
record already exists — and already holds publish handle 5 — neither
applies the manual-trigger mutations nor results in an Edit: the store is
returned unchanged with outcome `noPublish`, and the stored title is still
the plain variant. -/
theorem claim_C3_counterexample :
    ((cSt1.lookupVal "sha1").map (fun w => w.message) = some (some 5))
    ∧ receive_event 10 "workflow_run" cPRunDispatch cOrcOk cSt1
        = (cSt1, .ok .noPublish)
    ∧ ((cSt1.lookupVal "sha1").map (fun w => w.embed.title)
        = some (some "[r] Workflows")) :=
  ⟨rfl, rfl, rfl⟩

/-- C3 (amended): the kind-specific RunUpdate mutations (manual trigger:
manual-variant title, author = triggering actor with name and link but no
avatar) are applied only when the RunUpdate is the first event for its key
and thus creates the record, in which case the action is the initial
create-and-send; a RunUpdate arriving for an existing record performs no
mutation and produces no publish at all — the result is never Edit, even
when a publish_handle exists. -/
theorem claim_C3 (p : Payload) (run : WorkflowRunObj) (sha : String)
    (hrun : p.workflow_run = some run) (hsha : run.head_sha = some sha) :
    (∀ (now : Nat) (orc : DeliveryOracle) (st : TTLStore) (w : WorkflowEmbed),
      st.get now sha = some w →
      receive_event now "workflow_run" p orc st = (st, .ok .noPublish)) ∧
    (∀ (now : Nat) (orc : DeliveryOracle) (st : TTLStore) (h : Nat),
      st.get now sha = none → orc.sendResult = .ok h →
      run.event = "workflow_dispatch" →
      ∃ e, (receive_event now "workflow_run" p orc st).2
          = .ok (.createSent h e)
        ∧ e.title = some ("[" ++ p.repository.name
            ++ "] Manually Triggered Workflow")
        ∧ e.author = some ⟨run.triggering_actor.login,
            run.triggering_actor.html_url, none⟩) := by
  constructor
  · intro now orc st w hget
    exact receive_event_run_existing now p run sha orc st w hrun hsha hget
  · intro now orc st h habs hsend hdisp
    have hr := receive_event_run_fresh now p run sha orc st hrun hsha habs
    rw [hsend] at hr
    refine ⟨(handle_workflow_run_mutate (WorkflowEmbed.init p.repository sha)
        p.repository run).embed, ?_, ?_, ?_⟩
    · rw [hr]
    · exact (run_mutate_dispatch_embed _ _ _ hdisp).1
    · exact (run_mutate_dispatch_embed _ _ _ hdisp).2

/-- Witness for C3: the existing-record arm at the concrete store. -/
theorem claim_C3_witness :
    receive_event 10 "workflow_run" cPRunDispatch cOrcOk cSt1
      = (cSt1, .ok .noPublish) :=
  (claim_C3 cPRunDispatch cRunDispatch "sha1" rfl rfl).1 10 cOrcOk cSt1
    cRec1 rfl

/-- C4 counterexample: a `check_suite` event is rejected by the inbound
filter (not accepted), and a `check_run` event for an absent key creates
and caches a record and performs the initial create-and-send — a publish,
not `NoPublishYet`. -/
theorem claim_C4_counterexample :
    receive_event 0 "check_suite" cPCheckRun cOrcOk TTLStore.empty
      = (TTLStore.empty, .ok .ignoredKind)
    ∧ (receive_event 0 "check_run" cPCheckRun cOrcOk TTLStore.empty).2
        = .ok (.createSent 5 (create_embed cRepo "sha1"))
    ∧ (receive_event 0 "check_run" cPCheckRun cOrcOk
        TTLStore.empty).1.lookupVal "sha1"
      = some { embed := create_embed cRepo "sha1"
             , workflows := []
             , message := some 5 } :=
  ⟨rfl, rfl, rfl⟩

/-- C4 (amended): `check_suite` events are rejected at the inbound
boundary (the header filter drops them with no effect).  `check_run`
events are accepted: for an existing record they mutate nothing and
produce no publish, but for an absent correlation key they create and
cache a record and perform the initial create-and-send. -/
theorem claim_C4 :
    (∀ (now : Nat) (p : Payload) (orc : DeliveryOracle) (st : TTLStore),
      receive_event now "check_suite" p orc st = (st, .ok .ignoredKind)) ∧
    (∀ (now : Nat) (p : Payload) (sha : String) (orc : DeliveryOracle)
        (st : TTLStore) (w : WorkflowEmbed),
      p.check_run.bind (fun c => c.head_sha) = some sha →
      st.get now sha = some w →
      receive_event now "check_run" p orc st = (st, .ok .noPublish)) ∧
    (∀ (now : Nat) (p : Payload) (sha : String) (orc : DeliveryOracle)
        (st : TTLStore) (h : Nat),
      p.check_run.bind (fun c => c.head_sha) = some sha →
      st.get now sha = none → orc.sendResult = .ok h →
      (receive_event now "check_run" p orc st).2
        = .ok (.createSent h (create_embed p.repository sha))
      ∧ (receive_event now "check_run" p orc st).1.lookupVal sha
        = some { embed := create_embed p.repository sha
               , workflows := []
               , message := some h }) := by
  refine ⟨?_, ?_, ?_⟩
  · intro now p orc st
    apply receive_event_unknown
    simp
  · intro now p sha orc st w hsha hget
    exact receive_event_check_existing now p sha orc st w hsha hget
  · intro now p sha orc st h hsha habs hsend
    have hr := receive_event_check_fresh now p sha orc st hsha habs
    rw [hsend] at hr
    constructor
    · rw [hr]
    · rw [hr]
      exact TTLStore.lookupVal_set_mutate st now sha
        (WorkflowEmbed.init p.repository sha)
        (fun w => { w with message := some h })

/-- Witness for C4: the create-on-absent-key arm at the concrete
`check_run` event. -/
theorem claim_C4_witness :
    (receive_event 0 "check_run" cPCheckRun cOrcOk TTLStore.empty).2
      = .ok (.createSent 5 (create_embed cRepo "sha1")) :=
  (claim_C4.2.2 0 cPCheckRun "sha1" cOrcOk TTLStore.empty 5
    rfl rfl rfl).1

/-- C5 counterexample: a `workflow_job` event whose payload misses the
head commit SHA is not a silent no-op — the `KeyError` escapes the
handler (the store is untouched and nothing is published, but an error
does escape). -/
theorem claim_C5_counterexample :
    receive_event 0 "workflow_job" cPJobNoSha cOrcOk TTLStore.empty
      = (TTLStore.empty, .error .keyError) := rfl

/-- C5 (amended): an event whose kind is unrecognized is dropped as a
silent no-op before classification: no record is created or mutated, no
publish is attempted, and no error escapes.  An accepted event whose
payload is missing the head commit SHA also creates or mutates no record
and attempts no publish, but it is not silent: the KeyError raised by the
field access escapes the handler. -/
theorem claim_C5 :
    (∀ (now : Nat) (event : String) (p : Payload) (orc : DeliveryOracle)
        (st : TTLStore),
      ¬(event = "workflow_job" ∨ event = "check_run"
          ∨ event = "workflow_run") →
      receive_event now event p orc st = (st, .ok .ignoredKind)) ∧
    (∀ (now : Nat) (event : String) (p : Payload) (orc : DeliveryOracle)
        (st : TTLStore),
      (event = "workflow_job" ∨ event = "check_run"
          ∨ event = "workflow_run") →
      p.subHeadSha event = none →
      receive_event now event p orc st = (st, .error .keyError)) :=
  ⟨receive_event_unknown, receive_event_missing_sha⟩

/-- Witness for C5: the unrecognized kind `"push"` and the concrete
SHA-less payload. -/
theorem claim_C5_witness :
    receive_event 0 "push" cPJobQueued cOrcOk TTLStore.empty
      = (TTLStore.empty, .ok .ignoredKind)
    ∧ receive_event 0 "workflow_job" cPJobNoSha cOrcOk TTLStore.empty
      = (TTLStore.empty, .error .keyError) :=
  ⟨claim_C5.1 0 "push" cPJobQueued cOrcOk TTLStore.empty (by simp),
   claim_C5.2 0 "workflow_job" cPJobNoSha cOrcOk TTLStore.empty
     (Or.inl rfl) rfl⟩

/-- C6 counterexample: after a failed initial create-and-send the handle
is indeed unset — but the record is already cached, so the next JobUpdate
for the key does not perform a fresh create: it raises an AttributeError
(editing through the absent handle) even though delivery would now
succeed. -/
theorem claim_C6_counterexample :
    ((cStFail.lookupVal "sha1").map (fun w => w.message) = some none)
    ∧ (receive_event 10 "workflow_job" cPJobProgress cOrcOk cStFail).2
        = .error .attributeError :=
  ⟨rfl, rfl⟩

/-- C6 (amended): if the initial create-and-send fails, the record's
publish handle remains unset but the record itself is already cached; the
next JobUpdate for that correlation key therefore does not retry a create
— it attempts an edit through the absent handle, which fails with an
AttributeError and leaves the handle unset.  If an edit fails, the handle
is unchanged and the next JobUpdate retries an edit. -/
theorem claim_C6 (p : Payload) (job : WorkflowJobObj) (sha : String)
    (hjob : p.workflow_job = some job) (hsha : job.head_sha = some sha) :
    (∀ (now : Nat) (orc : DeliveryOracle) (st : TTLStore),
      st.get now sha = none → orc.sendResult = .error () →
      (receive_event now "workflow_job" p orc st).1.lookupVal sha
        = some (WorkflowEmbed.init p.repository sha)
      ∧ (receive_event now "workflow_job" p orc st).2
        = .error .deliveryError) ∧
    (∀ (now : Nat) (orc : DeliveryOracle) (st : TTLStore) (w : WorkflowEmbed),
      st.get now sha = some w → w.message = none →
      (receive_event now "workflow_job" p orc st).2 = .error .attributeError
      ∧ ((receive_event now "workflow_job" p orc st).1.lookupVal sha).map
          (fun r => r.message) = some none) ∧
    (∀ (now : Nat) (orc : DeliveryOracle) (st : TTLStore) (w : WorkflowEmbed)
        (hdl : Nat),
      st.get now sha = some w → w.message = some hdl → orc.editOk = false →
      (receive_event now "workflow_job" p orc st).2 = .error .deliveryError
      ∧ ((receive_event now "workflow_job" p orc st).1.lookupVal sha).map
          (fun r => r.message) = some (some hdl)) ∧
    (∀ (now : Nat) (orc : DeliveryOracle) (st : TTLStore) (w : WorkflowEmbed)
        (hdl : Nat),
      st.get now sha = some w → w.message = some hdl → orc.editOk = true →
      (receive_event now "workflow_job" p orc st).2
        = .ok (.editSent (handle_workflow_job_mutate w job).embed)) := by
  refine ⟨?_, ?_, ?_, ?_⟩
  · intro now orc st habs hsend
    have hr := receive_event_job_fresh now p job sha orc st hjob hsha habs
    rw [hsend] at hr
    constructor
    · rw [hr]
      exact TTLStore.lookupVal_set st now sha
        (WorkflowEmbed.init p.repository sha)
    · rw [hr]
  · intro now orc st w hget hmsg
    have hr := receive_event_job_existing now p job sha orc st w hjob hsha hget
    constructor
    · rw [hr, hmsg]
    · rw [hr]
      show ((st.mutate sha
          (fun _ => handle_workflow_job_mutate w job)).lookupVal sha).map
            (fun r => r.message) = some none
      rw [TTLStore.lookupVal_mutate]
      obtain ⟨x, hx⟩ := Option.isSome_iff_exists.mp
        (TTLStore.lookupVal_isSome_of_get st now sha w hget)
      rw [hx]
      simp [handle_workflow_job_mutate_message, hmsg]
  · intro now orc st w hdl hget hmsg hed
    have hr := receive_event_job_existing now p job sha orc st w hjob hsha hget
    constructor
    · rw [hr, hmsg, hed]
      simp
    · rw [hr]
      show ((st.mutate sha
          (fun _ => handle_workflow_job_mutate w job)).lookupVal sha).map
            (fun r => r.message) = some (some hdl)
      rw [TTLStore.lookupVal_mutate]
      obtain ⟨x, hx⟩ := Option.isSome_iff_exists.mp
        (TTLStore.lookupVal_isSome_of_get st now sha w hget)
      rw [hx]
      simp [handle_workflow_job_mutate_message, hmsg]
  · intro now orc st w hdl hget hmsg hed
    have hr := receive_event_job_existing now p job sha orc st w hjob hsha hget
    rw [hr, hmsg, hed]
    simp

/-- Witness for C6: the failed create at t=0 and the AttributeError on the
next event. -/
theorem claim_C6_witness :
    ((receive_event 0 "workflow_job" cPJobQueued cOrcFail TTLStore.empty).2
        = .error .deliveryError)
    ∧ ((receive_event 10 "workflow_job" cPJobProgress cOrcOk cStFail).2
        = .error .attributeError) :=
  ⟨((claim_C6 cPJobQueued cJobQueued "sha1" rfl rfl).1 0 cOrcFail
      TTLStore.empty rfl rfl).2,
   ((claim_C6 cPJobProgress cJobProgress "sha1" rfl rfl).2.1 10 cOrcOk
      cStFail (WorkflowEmbed.init cRepo "sha1") rfl rfl).1⟩

/-- C8: the store is `TTLCache(maxsize=100, ttl=600)`; an entry whose TTL
(measured from insertion) has elapsed reads as absent, so the next
JobUpdate for that key takes the creating path — a fresh record with the
new handle, via a create-and-send, never an edit of the stale record —
and a `set` never grows the store beyond 100 entries. -/
theorem claim_C8 :
    cacheTTL = 600 ∧ cacheMaxsize = 100 ∧
    (∀ (s : TTLStore) (t : Nat) (k : String) (v : WorkflowEmbed) (t' : Nat),
      t + cacheTTL ≤ t' → (s.set t k v).get t' k = none) ∧
    (∀ (st : TTLStore) (now : Nat) (p : Payload) (job : WorkflowJobObj)
        (sha : String) (orc : DeliveryOracle) (h : Nat),
      p.workflow_job = some job → job.head_sha = some sha →
      st.get now sha = none → orc.sendResult = .ok h →
      (receive_event now "workflow_job" p orc st).2
        = .ok (.createSent h (create_embed p.repository sha))
      ∧ (receive_event now "workflow_job" p orc st).1.lookupVal sha
        = some { embed := create_embed p.repository sha
               , workflows := []
               , message := some h }) ∧
    (∀ (s : TTLStore) (now : Nat) (k : String) (v : WorkflowEmbed),
      s.entries.length ≤ cacheMaxsize →
      (s.set now k v).entries.length ≤ cacheMaxsize) := by
  refine ⟨rfl, rfl, ?_, ?_, ?_⟩
  · intro s t k v t' h
    exact TTLStore.get_set_expired s t k v t' h
  · intro st now p job sha orc h hjob hsha habs hsend
    exact fresh_job_create_ok now p job sha orc h st hjob hsha habs hsend
  · intro s now k v h
    exact TTLStore.length_set_le s now k v h

/-- Witness for C8: insertion at t=0 is invisible at t=600, and the next
event's creating path, at the concrete store. -/
theorem claim_C8_witness :
    ((TTLStore.empty.set 0 "sha1" cRec1).get 600 "sha1" = none)
    ∧ ((receive_event 600 "workflow_job" cPJobQueued cOrcOk
        (TTLStore.empty.set 0 "sha1" cRec1)).2
      = .ok (.createSent 5 (create_embed cRepo "sha1"))) := by
  have h1 := claim_C8.2.2.1 TTLStore.empty 0 "sha1" cRec1 600 (by decide)
  exact ⟨h1,
    (claim_C8.2.2.2.1 (TTLStore.empty.set 0 "sha1" cRec1) 600 cPJobQueued
      cJobQueued "sha1" cOrcOk 5 rfl rfl h1 rfl).1⟩

/-- C9: a RunUpdate with trigger `workflow_dispatch` arriving as the first
event for a key stores a record whose title is the manual-trigger variant
and whose author is the triggering actor without avatar; any subsequent
JobUpdate for the same key leaves the stored title and author exactly as
it found them. -/
theorem claim_C9 (now : Nat) (p : Payload) (run : WorkflowRunObj)
    (sha : String) (orc : DeliveryOracle) (h : Nat) (st : TTLStore)
    (hrun : p.workflow_run = some run)
    (hdisp : run.event = "workflow_dispatch")
    (hsha : run.head_sha = some sha) (habs : st.get now sha = none)
    (hsend : orc.sendResult = .ok h) :
    (∃ w, (receive_event now "workflow_run" p orc st).1.lookupVal sha
        = some w
      ∧ w.embed.title = some ("[" ++ p.repository.name
          ++ "] Manually Triggered Workflow")
      ∧ w.embed.author = some ⟨run.triggering_actor.login,
          run.triggering_actor.html_url, none⟩)
    ∧ (∀ (now2 : Nat) (p2 : Payload) (job : WorkflowJobObj)
          (orc2 : DeliveryOracle) (w : WorkflowEmbed),
        p2.workflow_job = some job → job.head_sha = some sha →
        ((receive_event now "workflow_run" p orc st).1).get now2 sha
          = some w →
        (((receive_event now2 "workflow_job" p2 orc2
            ((receive_event now "workflow_run" p orc st).1)).1.lookupVal
              sha).map (fun r => (r.embed.title, r.embed.author)))
          = some (w.embed.title, w.embed.author)) := by
  have hr := receive_event_run_fresh now p run sha orc st hrun hsha habs
  rw [hsend] at hr
  constructor
  · refine ⟨{ handle_workflow_run_mutate (WorkflowEmbed.init p.repository sha)
        p.repository run with message := some h }, ?_, ?_, ?_⟩
    · rw [hr]
      exact TTLStore.lookupVal_set_mutate st now sha
        (handle_workflow_run_mutate (WorkflowEmbed.init p.repository sha)
          p.repository run)
        (fun w => { w with message := some h })
    · exact (run_mutate_dispatch_embed _ _ _ hdisp).1
    · exact (run_mutate_dispatch_embed _ _ _ hdisp).2
  · intro now2 p2 job orc2 w hjob2 hsha2 hget2
    have hr2 := receive_event_job_existing now2 p2 job sha orc2
      ((receive_event now "workflow_run" p orc st).1) w hjob2 hsha2 hget2
    rw [hr2]
    show (((receive_event now "workflow_run" p orc st).1.mutate sha
        (fun _ => handle_workflow_job_mutate w job)).lookupVal sha).map
          (fun r => (r.embed.title, r.embed.author))
      = some (w.embed.title, w.embed.author)
    rw [TTLStore.lookupVal_mutate]
    obtain ⟨x, hx⟩ := Option.isSome_iff_exists.mp
      (TTLStore.lookupVal_isSome_of_get _ now2 sha w hget2)
    rw [hx]
    simp [handle_workflow_job_mutate]

/-- Witness for C9 at the concrete dispatch event on an empty store. -/
theorem claim_C9_witness :
    ∃ w, (receive_event 0 "workflow_run" cPRunDispatch cOrcOk
        TTLStore.empty).1.lookupVal "sha1" = some w
      ∧ w.embed.title = some ("[" ++ cRepo.name
          ++ "] Manually Triggered Workflow")
      ∧ w.embed.author = some ⟨"alice", "https://x/alice", none⟩ :=
  (claim_C9 0 cPRunDispatch cRunDispatch "sha1" cOrcOk 5 TTLStore.empty
    rfl rfl rfl rfl rfl).1

/-- C10 counterexample: two back-to-back `workflow_job` events on one
already-published record, the second arriving while the first's edit is
in flight, produce two outbound edits under the per-record lock — not the
single coalesced edit the claim demands. -/
theorem claim_C10_counterexample :
    ¬((runSched (twoJobWorld cRec1 cJobProgress cJobFailed)
        backToBackSched).outbox.length = 1)
    ∧ (runSched (twoJobWorld cRec1 cJobProgress cJobFailed)
        backToBackSched).outbox
      = [(PubKind.edit, (handle_workflow_job_mutate cRec1 cJobProgress).embed),
         (PubKind.edit, (handle_workflow_job_mutate
            (handle_workflow_job_mutate cRec1 cJobProgress)
            cJobFailed).embed)] := by
  have h2 : (runSched (twoJobWorld cRec1 cJobProgress cJobFailed)
      backToBackSched).outbox
    = [(PubKind.edit, (handle_workflow_job_mutate cRec1 cJobProgress).embed),
       (PubKind.edit, (handle_workflow_job_mutate
          (handle_workflow_job_mutate cRec1 cJobProgress)
          cJobFailed).embed)] := rfl
  exact ⟨by rw [h2]; decide, h2⟩

set_option maxHeartbeats 1000000 in
/-- C10 (amended): for a single record, publish operations are serialized
by the per-record exclusive section.  The initial send happens exactly
once and establishes the publish handle before any edit runs: an edit
request arriving while the initial publish is in flight waits for the
lock and then executes against the now-stored handle, rendering the
record's latest mutated state at the moment its own edit call runs.  But
a second event arriving during an in-flight edit is not coalesced: each
event issues its own outbound edit, so two back-to-back events produce
exactly two serialized edits, the second reflecting the second event's
state. -/
theorem claim_C10 (emb : Embed) (ws : List (Nat × JobEntry)) (hdl : Nat)
    (jobA jobB : WorkflowJobObj) :
    ((runSched (createThenJobWorld ⟨emb, ws, none⟩ hdl jobB)
        createEditSched).outbox
      = [(PubKind.create, emb),
         (PubKind.edit,
          (handle_workflow_job_mutate ⟨emb, ws, none⟩ jobB).embed)]
      ∧ (runSched (createThenJobWorld ⟨emb, ws, none⟩ hdl jobB)
          createEditSched).record.message = some hdl)
    ∧ (runSched (twoJobWorld ⟨emb, ws, some hdl⟩ jobA jobB)
        backToBackSched).outbox
      = [(PubKind.edit,
          (handle_workflow_job_mutate ⟨emb, ws, some hdl⟩ jobA).embed),
         (PubKind.edit,
          (handle_workflow_job_mutate
            (handle_workflow_job_mutate ⟨emb, ws, some hdl⟩ jobA)
            jobB).embed)] := by
  refine ⟨⟨?_, ?_⟩, ?_⟩ <;>
    simp [runSched, createEditSched, backToBackSched, gateStep,
      GateWorld.taskOf, GateWorld.setTask, createThenJobWorld, twoJobWorld,
      createProgram, editProgram, List.find?,
      handle_workflow_job_mutate_message]
